import Mathlib

/-!
Verification of the InkSpire quote widget (src/script.js and its revision
src/unnamed/part_001): quote acquisition with local fallback, random
selection, rendering, and sharing. The DOM is shallowly embedded as an
explicit display-state record; Math.random() is modelled as a rational
argument in the unit interval; JavaScript field absence, null and strings
are distinguished by an explicit value type.
-/

namespace InkSpire

/-- A JavaScript value as it can appear in a quote record's author field:
absent (undefined), null, or a string. -/
inductive JSVal where
  | undef
  | null
  | str (s : String)
deriving DecidableEq, Repr

/-- A quote record as produced by the local list or the remote API: a text
string together with an author field that may be absent, null, or a string. -/
structure QuoteRecord where
  text : String
  author : JSVal
deriving DecidableEq, Repr

/-- The part of the DOM state the script reads and writes: the text content of
the quote and author elements, the presence of the quote element's long-quote
class, and the hidden flags of the loader and the main container. -/
structure DisplayState where
  quoteText : String
  authorText : String
  longQuote : Bool
  loaderHidden : Bool
  mainHidden : Bool
deriving DecidableEq, Repr

/-- loading(): shows the loader and hides the main container. -/
def loading (st : DisplayState) : DisplayState :=
  { st with loaderHidden := false, mainHidden := true }

/-- completeLoading(): shows the main container and hides the loader. -/
def completeLoading (st : DisplayState) : DisplayState :=
  { st with mainHidden := false, loaderHidden := true }

/-- The destructuring default of setQuote, from
`\x7b author: authorText = "Unknown" \x7d`: the default substitutes only when
the field is undefined, never for null or for an empty string. -/
def destructureAuthor : JSVal → JSVal
  | .undef => .str "Unknown"
  | v => v

/-- Stringification of a JavaScript value interpolated into a template literal. -/
def jsToString : JSVal → String
  | .undef => "undefined"
  | .null => "null"
  | .str s => s

/-- setQuote (src/script.js lines 97-102, identical in src/unnamed/part_001):
writes the quote text, writes the author text as the template literal
" - " followed by the author value after the destructuring default, and
toggles the long-quote class with the forced boolean
`quoteText.length > 120`, which both sets and clears the class. -/
def setQuote (q : QuoteRecord) (st : DisplayState) : DisplayState :=
  { st with
    quoteText := q.text,
    authorText := " - " ++ jsToString (destructureAuthor q.author),
    longQuote := decide (q.text.length > 120) }

/-- The index `Math.floor(Math.random() * data.length)` computed by newQuote,
with the value of Math.random() modelled as a rational r. -/
def jsIndex (r : ℚ) (len : ℕ) : ℕ := (⌊r * (len : ℚ)⌋).toNat

/-- The observable outcome of one newQuote call: whether the empty-data error
was logged, whether setQuote was invoked, whether the call threw a TypeError
(destructuring undefined), and the resulting display state. -/
structure SelectOutcome where
  loggedError : Bool
  renderCalled : Bool
  crashed : Bool
  display : DisplayState
deriving DecidableEq, Repr

/-- newQuote as written in src/script.js (lines 111-116): after loading(), the
expression `(!data.length) && logError(...)` only logs, and execution falls
through to `setQuote(data[Math.floor(Math.random() * data.length)])`
unconditionally; indexing past the end of the array yields undefined, whose
destructuring inside setQuote throws a TypeError before any display write,
so completeLoading() never runs and the loader stays visible. -/
def newQuote_script (dta : List QuoteRecord) (r : ℚ) (st : DisplayState) : SelectOutcome :=
  let st1 := loading st
  match dta[jsIndex r dta.length]? with
  | some q =>
      { loggedError := decide (dta.length = 0),
        renderCalled := true,
        crashed := false,
        display := completeLoading (setQuote q st1) }
  | none =>
      { loggedError := decide (dta.length = 0),
        renderCalled := true,
        crashed := true,
        display := st1 }

/-- newQuote as written in src/unnamed/part_001 (lines 123-132): when data is
empty it logs, runs completeLoading() and returns without calling setQuote. -/
def newQuote_part001 (dta : List QuoteRecord) (r : ℚ) (st : DisplayState) : SelectOutcome :=
  let st1 := loading st
  if dta.length = 0 then
    { loggedError := true,
      renderCalled := false,
      crashed := false,
      display := completeLoading st1 }
  else
    match dta[jsIndex r dta.length]? with
    | some q =>
        { loggedError := false,
          renderCalled := true,
          crashed := false,
          display := completeLoading (setQuote q st1) }
    | none =>
        { loggedError := false,
          renderCalled := true,
          crashed := true,
          display := st1 }

/-- The outcome of the awaited fetch of getQuotes, after `response.json()`:
either a parsed list of quote records, or any failure (network error,
non-JSON body, non-iterable shape) that lands in the catch block. -/
inductive FetchOutcome where
  | success (quotes : List QuoteRecord)
  | failure
deriving DecidableEq, Repr

/-- The observable outcome of one getQuotes run: the final value of the global
data array, whether the catch block logged a fetch error, and the outcome of
the newQuote call it triggers. -/
structure AcquireOutcome where
  data : List QuoteRecord
  fetchErrorLogged : Bool
  sel : SelectOutcome
deriving DecidableEq, Repr

/-- getQuotes (src/script.js lines 127-144, same data-flow in
src/unnamed/part_001 lines 139-155): on success assigns
`data = [...localQuotes, ...apiQuotes]` and calls newQuote(); in the catch
block logs the error, assigns `data = [...localQuotes]` and calls newQuote(). -/
def getQuotes (localQuotes : List QuoteRecord) (outcome : FetchOutcome)
    (r : ℚ) (st : DisplayState) : AcquireOutcome :=
  let st1 := loading st
  match outcome with
  | .success apiQuotes =>
      let dta := localQuotes ++ apiQuotes
      { data := dta, fetchErrorLogged := false, sel := newQuote_script dta r st1 }
  | .failure =>
      let dta := localQuotes
      { data := dta, fetchErrorLogged := true, sel := newQuote_script dta r st1 }

/-- The observable outcome of one shareQuote call: whether the empty-content
error was logged, whether a share surface was opened (window.open or the Web
Share dialog), which channel was used, and the share text handed to it before
URL encoding. -/
structure ShareOutcome where
  loggedError : Bool
  openedShare : Bool
  viaWebShare : Bool
  shareText : String
deriving DecidableEq, Repr

/-- shareQuote as written in src/script.js (lines 80-85): the emptiness check
`(!quote || !author) && logError(...)` only logs, and execution always falls
through to build the Twitter URL from the template
`"quoteText" - authorText` and open it in a new tab. -/
def shareQuote_script (quoteText authorText : String) : ShareOutcome :=
  { loggedError := quoteText.isEmpty || authorText.isEmpty,
    openedShare := true,
    viaWebShare := false,
    shareText := "\"" ++ quoteText ++ "\" - " ++ authorText }

/-- shareQuote as written in src/unnamed/part_001 (lines 76-101): returns early
with only a log when either text is empty; otherwise shares the text
`quoteText authorText` through the Web Share API when available, else through
the Twitter URL fallback opened in a new tab. -/
def shareQuote_part001 (quoteText authorText : String) (hasWebShare : Bool) : ShareOutcome :=
  if quoteText.isEmpty || authorText.isEmpty then
    { loggedError := true,
      openedShare := false,
      viaWebShare := false,
      shareText := "" }
  else
    { loggedError := false,
      openedShare := true,
      viaWebShare := hasWebShare,
      shareText := quoteText ++ " " ++ authorText }

/-- A concrete display state used by the closed instance theorems below. -/
def d0 : DisplayState :=
  { quoteText := "prev", authorText := " - P", longQuote := false,
    loaderHidden := true, mainHidden := false }

/-- C1: evaluated at the failing input (empty data), newQuote in src/script.js
logs the error but still makes the render call: setQuote is invoked with
`data[0] = undefined` and throws while destructuring, so the claim's
"no render call (setQuote) is made" fails on src/script.js, while the revision
in src/unnamed/part_001 makes no render call and leaves the quote and author
displays exactly in their prior state, as the claim states. -/
theorem c1_empty_data_render_call :
    (newQuote_script [] (1/2) d0).loggedError = true ∧
    (newQuote_script [] (1/2) d0).renderCalled = true ∧
    (newQuote_script [] (1/2) d0).crashed = true ∧
    (newQuote_part001 [] (1/2) d0).loggedError = true ∧
    (newQuote_part001 [] (1/2) d0).renderCalled = false ∧
    (newQuote_part001 [] (1/2) d0).display.quoteText = "prev" ∧
    (newQuote_part001 [] (1/2) d0).display.authorText = " - P" := by
  decide

/-- C2: for every local list and every failing fetch, getQuotes logs the failure
and sets the data array to exactly the local list, order preserved, with no
remote elements. -/
theorem c2_failure_sets_local_exactly (L : List QuoteRecord) (r : ℚ) (st : DisplayState) :
    (getQuotes L .failure r st).data = L ∧
    (getQuotes L .failure r st).fetchErrorLogged = true :=
  ⟨rfl, rfl⟩

/-- C3: for every local list L and every remote outcome, after getQuotes the
data array has length at least the length of L, and is non-empty whenever L
is non-empty. -/
theorem c3_data_length_lower_bound (L : List QuoteRecord) (out : FetchOutcome)
    (r : ℚ) (st : DisplayState) :
    L.length ≤ (getQuotes L out r st).data.length ∧
    (L ≠ [] → (getQuotes L out r st).data ≠ []) := by
  cases out with
  | success R =>
      constructor
      · simp [getQuotes]
      · intro hL
        simp only [getQuotes]
        exact fun h => hL (List.append_eq_nil.mp h).1
  | failure => exact ⟨le_rfl, fun hL => hL⟩

/-- C3 witness: the bound evaluated at a concrete one-element local list and a
failing fetch, the non-emptiness hypothesis discharged there. -/
theorem c3_data_length_lower_bound_witness :
    ([⟨"A", .str "X"⟩] : List QuoteRecord).length ≤
      (getQuotes [⟨"A", .str "X"⟩] .failure 0 d0).data.length ∧
    (getQuotes [⟨"A", .str "X"⟩] .failure 0 d0).data ≠ [] :=
  ⟨(c3_data_length_lower_bound [⟨"A", .str "X"⟩] .failure 0 d0).1,
   (c3_data_length_lower_bound [⟨"A", .str "X"⟩] .failure 0 d0).2 (by decide)⟩

/-- C4: for every local list L and every remote list R, a successful fetch sets
the data array to exactly L followed by R, in that order, with no
deduplication. -/
theorem c4_success_concatenates (L R : List QuoteRecord) (r : ℚ) (st : DisplayState) :
    (getQuotes L (.success R) r st).data = L ++ R :=
  rfl

/-- C6: for every rendered quote, the author display equals " - " followed by
the author string when the author field is present as a string, and equals
" - Unknown" when the author field is absent. -/
theorem c6_author_display (t s : String) (st : DisplayState) :
    (setQuote ⟨t, .str s⟩ st).authorText = " - " ++ s ∧
    (setQuote ⟨t, .undef⟩ st).authorText = " - Unknown" :=
  ⟨rfl, rfl⟩

/-- C7: for every rendered quote, the long-quote class is applied if and only if
the quote text's length exceeds 120 characters. -/
theorem c7_long_flag_iff (q : QuoteRecord) (st : DisplayState) :
    (setQuote q st).longQuote = true ↔ 120 < q.text.length := by
  simp [setQuote]

/-- C8: the "Unknown" default is applied only for an absent (undefined) author
field; a null author renders " - null" and an empty-string author renders
" - " with nothing after it, never " - Unknown". -/
theorem c8_null_empty_author (t : String) (st : DisplayState) :
    (setQuote ⟨t, .null⟩ st).authorText = " - null" ∧
    (setQuote ⟨t, .str ""⟩ st).authorText = " - " ∧
    (setQuote ⟨t, .undef⟩ st).authorText = " - Unknown" :=
  ⟨rfl, rfl, rfl⟩

/-- C5: for every non-empty data array and every random value r with
0 ≤ r < 1, the index floor(r * length) computed by newQuote is in range, the
record at that index is a member of the data array, and newQuote hands exactly
that record to setQuote without crashing. -/
theorem c5_select_in_range (dta : List QuoteRecord) (r : ℚ) (st : DisplayState)
    (hne : dta ≠ []) (h0 : 0 ≤ r) (h1 : r < 1) :
    jsIndex r dta.length < dta.length ∧
    ∃ q ∈ dta, dta[jsIndex r dta.length]? = some q ∧
      (newQuote_script dta r st).renderCalled = true ∧
      (newQuote_script dta r st).crashed = false ∧
      (newQuote_script dta r st).display.quoteText = q.text := by
  have hlen : 0 < dta.length := List.length_pos.mpr hne
  have hlenq : (0 : ℚ) < (dta.length : ℚ) := by exact_mod_cast hlen
  have hlt : jsIndex r dta.length < dta.length := by
    have hl0 : (0 : ℚ) ≤ r * (dta.length : ℚ) := mul_nonneg h0 (le_of_lt hlenq)
    have hmul : r * (dta.length : ℚ) < (dta.length : ℚ) := by
      calc r * (dta.length : ℚ) < 1 * (dta.length : ℚ) :=
            mul_lt_mul_of_pos_right h1 hlenq
        _ = (dta.length : ℚ) := one_mul _
    have hfl : ⌊r * (dta.length : ℚ)⌋ < (dta.length : ℤ) := by
      rw [Int.floor_lt]
      exact_mod_cast hmul
    have hfl0 : (0 : ℤ) ≤ ⌊r * (dta.length : ℚ)⌋ := Int.floor_nonneg.mpr hl0
    unfold jsIndex
    omega
  have hget : dta[jsIndex r dta.length]? = some (dta.get ⟨jsIndex r dta.length, hlt⟩) := by
    rw [List.getElem?_eq_getElem hlt]
    rfl
  refine ⟨hlt, dta.get ⟨jsIndex r dta.length, hlt⟩, List.get_mem dta _ hlt, hget, ?_, ?_, ?_⟩ <;>
    simp [newQuote_script, hget, setQuote, completeLoading]

/-- C5 witness: the in-range and membership properties evaluated at the
one-element data array containing the quote "A" by "X" and r = 1/2. -/
theorem c5_select_in_range_witness :
    jsIndex (1/2) ([⟨"A", .str "X"⟩] : List QuoteRecord).length <
      ([⟨"A", .str "X"⟩] : List QuoteRecord).length ∧
    ∃ q ∈ ([⟨"A", .str "X"⟩] : List QuoteRecord),
      ([⟨"A", .str "X"⟩] : List QuoteRecord)[jsIndex (1/2)
        ([⟨"A", .str "X"⟩] : List QuoteRecord).length]? = some q ∧
      (newQuote_script [⟨"A", .str "X"⟩] (1/2) d0).renderCalled = true ∧
      (newQuote_script [⟨"A", .str "X"⟩] (1/2) d0).crashed = false ∧
      (newQuote_script [⟨"A", .str "X"⟩] (1/2) d0).display.quoteText = q.text :=
  c5_select_in_range [⟨"A", .str "X"⟩] (1/2) d0 (by decide) (by norm_num) (by norm_num)

/-- C9: shareQuote in src/script.js opens the share window unconditionally, and
when either displayed text is empty it logs the error but still opens the
share window, whereas shareQuote in src/unnamed/part_001 returns early in that
case without opening any share surface. -/
theorem c9_share_unconditional (q a : String) (hb : Bool) :
    (shareQuote_script q a).openedShare = true ∧
    ((q.isEmpty = true ∨ a.isEmpty = true) →
      (shareQuote_script q a).loggedError = true ∧
      (shareQuote_part001 q a hb).openedShare = false ∧
      (shareQuote_part001 q a hb).loggedError = true) := by
  refine ⟨rfl, fun h => ?_⟩
  have hor : (q.isEmpty || a.isEmpty) = true := by
    rcases h with h | h <;> simp [h]
  refine ⟨?_, ?_, ?_⟩ <;> simp [shareQuote_script, shareQuote_part001, hor]

/-- C9 witness: the share behaviour evaluated at an empty quote display and the
author display " - X", in both source versions. -/
theorem c9_share_unconditional_witness :
    (shareQuote_script "" " - X").openedShare = true ∧
    (shareQuote_script "" " - X").loggedError = true ∧
    (shareQuote_part001 "" " - X" false).openedShare = false ∧
    (shareQuote_part001 "" " - X" false).loggedError = true :=
  ⟨(c9_share_unconditional "" " - X" false).1,
   ((c9_share_unconditional "" " - X" false).2 (Or.inl (by decide))).1,
   ((c9_share_unconditional "" " - X" false).2 (Or.inl (by decide))).2.1,
   ((c9_share_unconditional "" " - X" false).2 (Or.inl (by decide))).2.2⟩

/-- C10: the long-quote flag after a render depends only on the rendered text's
length: rendering a quote longer than 120 characters sets the flag, and a
subsequent render of a quote of at most 120 characters clears it again,
whatever the prior display state. -/
theorem c10_flag_cleared (prior : DisplayState) (q1 q2 : QuoteRecord)
    (h1 : 120 < q1.text.length) (h2 : q2.text.length ≤ 120) :
    (setQuote q1 prior).longQuote = true ∧
    (setQuote q2 (setQuote q1 prior)).longQuote = false := by
  constructor <;> simp [setQuote] <;> omega

set_option maxRecDepth 4000 in
/-- C10 witness: a 150-character quote sets the flag and a following
50-character quote clears it, starting from the concrete display state d0. -/
theorem c10_flag_cleared_witness :
    120 < (String.mk (List.replicate 150 'a')).length ∧
    (String.mk (List.replicate 50 'b')).length ≤ 120 ∧
    ((setQuote ⟨String.mk (List.replicate 150 'a'), .undef⟩ d0).longQuote = true ∧
     (setQuote ⟨String.mk (List.replicate 50 'b'), .undef⟩
       (setQuote ⟨String.mk (List.replicate 150 'a'), .undef⟩ d0)).longQuote = false) :=
  ⟨by decide, by decide,
   c10_flag_cleared d0 ⟨String.mk (List.replicate 150 'a'), .undef⟩
     ⟨String.mk (List.replicate 50 'b'), .undef⟩ (by decide) (by decide)⟩

end InkSpire
